import Mathlib

/-!
Shallow embedding of the submission lifecycle and grading engine of the
classroom-management REST API (files `src/server/models/Submission.js`,
`src/server/models/Assignment.js`, `src/server/controllers/submission.js`).

Times are modelled as integer milliseconds since the epoch (JS `Date.now()`
values).  JS `Number` quantities that may be fractional (grades, penalties,
total points) are modelled as `ℚ`; ids are `Nat`.  A JS value that may be
`undefined`/`null` is an `Option`.
-/

namespace Collab

/-- Submission status enum (`Submission.js` line 41). -/
inductive SubStatus
  | draft
  | submitted
  | graded
  | returned
deriving DecidableEq, Repr

/-- Assignment status enum (`Assignment.js` line 67). -/
inductive AsgStatus
  | draft
  | published
  | closed
deriving DecidableEq, Repr

/-- Attachment metadata (opaque pass-through values, `Submission.js` lines 23-38). -/
structure Attachment where
  fileName : String
  fileUrl : String
  fileType : Option String := none
  fileSize : Option Int := none
deriving DecidableEq, Repr

/-- The `Assignment` document (`Assignment.js`).  Fields not used by the
submission engine (title, description, instructions, attachments,
timestamps other than `dueDate`) are omitted. -/
structure Assignment where
  id : Nat
  classroom : Nat
  teacher : Nat
  dueDate : Int
  totalPoints : ℚ := 100
  allowLateSubmission : Bool := false
  lateSubmissionPenalty : ℚ := 0
  status : AsgStatus := .draft
  submissions : List Nat := []
deriving DecidableEq, Repr

/-- The `Classroom` document: only the fields the submission engine reads. -/
structure Classroom where
  id : Nat
  teacher : Nat
  students : List Nat := []
deriving DecidableEq, Repr

/-- The `Submission` document (`Submission.js` lines 3-82). -/
structure Submission where
  id : Nat
  assignment : Nat
  student : Nat
  classroom : Nat
  content : Option String := none
  attachments : List Attachment := []
  status : SubStatus := .draft
  submittedAt : Option Int := none
  grade : Option ℚ := none
  feedback : Option String := none
  gradedBy : Option Nat := none
  gradedAt : Option Int := none
  isLate : Bool := false
  lateByDays : Int := 0
  penaltyApplied : ℚ := 0
  updatedAt : Int := 0
deriving DecidableEq, Repr

/-- Error taxonomy of the HTTP surface (spec §6/§7; the controllers return
these via `res.status(...)`). -/
inductive ApiError
  | notFound (msg : String)
  | forbidden (msg : String)
  | validationError (msg : String)
  | internal (msg : String)
deriving DecidableEq, Repr

/-- Results of the embedded controllers are comparable, so that concrete
runs can be checked by `decide`. -/
instance exceptDecEq {ε α : Type} [DecidableEq ε] [DecidableEq α] :
    DecidableEq (Except ε α) := fun x y =>
  match x, y with
  | .ok a, .ok b =>
    if h : a = b then isTrue (by rw [h])
    else isFalse (by intro hc; cases hc; exact h rfl)
  | .error a, .error b =>
    if h : a = b then isTrue (by rw [h])
    else isFalse (by intro hc; cases hc; exact h rfl)
  | .ok _, .error _ => isFalse (by intro hc; cases hc)
  | .error _, .ok _ => isFalse (by intro hc; cases hc)

/-- HTTP status code attached to each error kind. -/
def ApiError.statusCode : ApiError → Nat
  | .notFound _ => 404
  | .forbidden _ => 403
  | .validationError _ => 400
  | .internal _ => 500

/-- Milliseconds per day, the divisor `1000 * 60 * 60 * 24` in
`Submission.js` line 108. -/
def dayMs : Int := 1000 * 60 * 60 * 24

/-- JS `Math.ceil` on an exact rational. -/
def jsCeil (q : ℚ) : Int := ⌈q⌉

/-- JS `Math.round` (half-up, i.e. ties toward +∞) on an exact rational. -/
def jsRound (q : ℚ) : Int := ⌊q + 1 / 2⌋

/-- JS truthiness of an optional string: `undefined`, `null` and `""` are
falsy, every other string is truthy. -/
def jsStrTruthy : Option String → Bool
  | none => false
  | some s => s ≠ ""

/-- The `pre('save')` hook of `Submission.js` lines 88-131.
`a?` is the populated assignment (`none` if the reference is dangling);
`statusModified` and `gradeModified` are Mongoose's `isModified('status')`
and `isModified('grade')` for this save. -/
def preSaveSubmission (s : Submission) (a? : Option Assignment) (now : Int)
    (statusModified gradeModified : Bool) : Submission :=
  let s1 : Submission := { s with updatedAt := now }
  -- if status is changing to 'submitted', set submittedAt and check if late
  let s2 : Submission :=
    if statusModified && (s1.status == .submitted) && (s1.submittedAt == none) then
      let s1a : Submission := { s1 with submittedAt := some now }
      match a? with
      | some a =>
        if now > a.dueDate then
          -- diffDays = Math.ceil(Math.abs(submitDate - dueDate) / dayMs)
          let diffDays := jsCeil ((|now - a.dueDate| : ℤ) / (dayMs : ℚ))
          let s1b : Submission := { s1a with isLate := true, lateByDays := diffDays }
          if a.lateSubmissionPenalty > 0 then
            { s1b with penaltyApplied := a.lateSubmissionPenalty * diffDays }
          else s1b
        else s1a
      | none => s1a
    else s1
  -- if graded, set gradedAt timestamp
  if gradeModified && !(s2.grade == none) && (s2.gradedAt == none) then
    let s2a : Submission := { s2 with gradedAt := some now }
    if s2a.status == .submitted then { s2a with status := .graded } else s2a
  else s2

/-- Round to 2 decimal places as the source does:
`Math.round(x * 100) / 100`. -/
def roundTo2 (q : ℚ) : ℚ := (jsRound (q * 100) : ℤ) / 100

/-- The `finalGrade` virtual (`Submission.js` lines 134-142).
`this.penaltyApplied || 0` is the identity here because the schema defaults
`penaltyApplied` to `0` and `0` is falsy. -/
def finalGrade (s : Submission) : Option ℚ :=
  match s.grade with
  | none => none
  | some g => some (roundTo2 (max 0 (g - s.penaltyApplied)))

/-- The `gradePercentage` virtual (`Submission.js` lines 145-156); `a?` is
the populated assignment.  `this.assignment.totalPoints` must be truthy,
so `totalPoints = 0` yields `null`. -/
def gradePercentage (s : Submission) (a? : Option Assignment) : Option Int :=
  match finalGrade s with
  | none => none
  | some f =>
    match a? with
    | some a => if a.totalPoints ≠ 0 then some (jsRound (f / a.totalPoints * 100)) else none
    | none => none

/-- The persistent store the controllers act on.  `nextId` supplies the id
of the next created submission (Mongo generates fresh `_id`s). -/
structure DB where
  classrooms : List Classroom := []
  assignments : List Assignment := []
  submissions : List Submission := []
  nextId : Nat := 0
deriving DecidableEq, Repr

/-- `Assignment.findById` (first submission with the given id). -/
def DB.findAssignment (db : DB) (aid : Nat) : Option Assignment :=
  db.assignments.find? (fun a => a.id == aid)

/-- `Classroom.findById`. -/
def DB.findClassroom (db : DB) (cid : Nat) : Option Classroom :=
  db.classrooms.find? (fun c => c.id == cid)

/-- `Submission.findOne({assignment, student})`. -/
def DB.findSubmissionPair (db : DB) (aid stu : Nat) : Option Submission :=
  db.submissions.find? (fun s => s.assignment == aid && s.student == stu)

/-- `Submission.findById`. -/
def DB.findSubmissionById (db : DB) (sid : Nat) : Option Submission :=
  db.submissions.find? (fun s => s.id == sid)

/-- Persist a changed submission document: Mongoose `save` writes the
document identified by its `_id`. -/
def DB.saveSubmission (db : DB) (s : Submission) : DB :=
  { db with submissions := db.submissions.map (fun t => if t.id == s.id then s else t) }

/-- Request body of `POST /api/submissions` (`req.body` in
`createSubmission`).  A missing or `null` JSON field is `none`. -/
structure SubmissionReq where
  assignment : Option Nat := none
  content : Option String := none
  attachments : Option (List Attachment) := none
  status : Option SubStatus := none
deriving DecidableEq, Repr

/-- Request body of `PUT /api/submissions/:id/grade`. -/
structure GradeReq where
  grade : Option ℚ := none
  feedback : Option String := none
deriving DecidableEq, Repr

/-- `exports.createSubmission` (`controllers/submission.js` lines 8-118).
Returns the store after the call (unchanged on every error path) together
with the response: `.ok` carries the created/updated submission. -/
def createSubmission (db : DB) (userId : Nat) (req : SubmissionReq) (now : Int) :
    DB × Except ApiError Submission :=
  match req.assignment with
  | none => (db, .error (.validationError "Please provide an assignment ID"))
  | some aid =>
    match db.findAssignment aid with
    | none => (db, .error (.notFound "Assignment not found"))
    | some asg =>
      if asg.status ≠ .published then
        (db, .error (.validationError "Cannot submit to unpublished assignment"))
      else
        match db.findClassroom asg.classroom with
        | none =>
          -- `classroom.students` on a null classroom throws; caught as 500
          (db, .error (.internal "Error creating submission"))
        | some classroom =>
          if ¬ classroom.students.contains userId then
            (db, .error (.forbidden "You are not enrolled in this classroom"))
          else if ¬ asg.allowLateSubmission ∧ now > asg.dueDate then
            (db, .error (.validationError
              "This assignment no longer accepts submissions (past due date)"))
          else
            match db.findSubmissionPair aid userId with
            | some sub =>
              if sub.status = .graded ∨ sub.status = .returned then
                (db, .error (.validationError
                  "Cannot modify submission after it has been graded"))
              else
                -- merge with JS `||`: a falsy provided value retains the old one
                let merged : Submission := { sub with
                  content := if jsStrTruthy req.content then req.content else sub.content,
                  attachments := req.attachments.getD sub.attachments,
                  status := req.status.getD sub.status }
                -- Mongoose marks 'status' modified only if the value changed
                let saved := preSaveSubmission merged (some asg) now
                  (merged.status ≠ sub.status) false
                (db.saveSubmission saved, .ok saved)
            | none =>
              let fresh : Submission :=
                { id := db.nextId, assignment := aid,
                  student := userId, classroom := asg.classroom,
                  content := req.content, attachments := req.attachments.getD [],
                  status := req.status.getD .draft }
              -- on a new document every constructor-set path is modified
              let saved := preSaveSubmission fresh (some asg) now true false
              let asg1 : Assignment := { asg with submissions := asg.submissions ++ [saved.id] }
              ({ db with
                  submissions := db.submissions ++ [saved],
                  assignments := db.assignments.map (fun a => if a.id == asg.id then asg1 else a),
                  nextId := db.nextId + 1 },
               .ok saved)

/-- `exports.gradeSubmission` (`controllers/submission.js` lines 202-261). -/
def gradeSubmission (db : DB) (userId : Nat) (sid : Nat) (req : GradeReq) (now : Int) :
    DB × Except ApiError Submission :=
  match db.findSubmissionById sid with
  | none => (db, .error (.notFound "Submission not found"))
  | some sub =>
    match db.findAssignment sub.assignment with
    | none =>
      -- `submission.assignment.teacher` on an unpopulated reference throws
      (db, .error (.internal "Error grading submission"))
    | some asg =>
      if asg.teacher ≠ userId then
        (db, .error (.forbidden "Only the assignment teacher can grade submissions"))
      else if (match req.grade with
               | some g => decide (g < 0) || decide (g > asg.totalPoints)
               | none => false) then
        (db, .error (.validationError
          ("Grade must be between 0 and " ++ toString asg.totalPoints)))
      else
        let updated : Submission := { sub with
          grade := req.grade, feedback := req.feedback,
          gradedBy := some userId, status := .graded }
        let saved := preSaveSubmission updated (some asg) now
          (updated.status ≠ sub.status) (updated.grade ≠ sub.grade)
        (db.saveSubmission saved, .ok saved)

/-- `exports.deleteSubmission` (`controllers/submission.js` lines 315-362). -/
def deleteSubmission (db : DB) (userId : Nat) (sid : Nat) : DB × Except ApiError Unit :=
  match db.findSubmissionById sid with
  | none => (db, .error (.notFound "Submission not found"))
  | some sub =>
    if sub.student ≠ userId then
      (db, .error (.forbidden "You can only delete your own submissions"))
    else if sub.status = .graded ∨ sub.status = .returned then
      (db, .error (.validationError "Cannot delete submission after it has been graded"))
    else
      ({ db with
          assignments := db.assignments.map (fun a =>
            if a.id == sub.assignment then
              { a with submissions := a.submissions.filter (fun x => x ≠ sub.id) }
            else a),
          submissions := db.submissions.filter (fun s => s.id ≠ sid) },
       .ok ())

/-- Number of stored submissions for an (assignment, student) pair. -/
def pairCount (db : DB) (aid stu : Nat) : Nat :=
  db.submissions.countP (fun s => s.assignment == aid && s.student == stu)

/-- Store well-formedness: submission ids are distinct and below `nextId`
(Mongo `_id`s are unique; `nextId` is the next fresh one). -/
def WF (db : DB) : Prop :=
  (db.submissions.map (fun s => s.id)).Nodup ∧ ∀ s ∈ db.submissions, s.id < db.nextId

/-! ### Helper lemmas -/

/-- The pre-save hook never touches the identity/ownership fields nor the
student-supplied fields of the document. -/
theorem preSaveSubmission_frame (s : Submission) (a? : Option Assignment) (now : Int)
    (sm gm : Bool) :
    (preSaveSubmission s a? now sm gm).id = s.id ∧
    (preSaveSubmission s a? now sm gm).assignment = s.assignment ∧
    (preSaveSubmission s a? now sm gm).student = s.student ∧
    (preSaveSubmission s a? now sm gm).classroom = s.classroom ∧
    (preSaveSubmission s a? now sm gm).content = s.content ∧
    (preSaveSubmission s a? now sm gm).attachments = s.attachments ∧
    (preSaveSubmission s a? now sm gm).grade = s.grade ∧
    (preSaveSubmission s a? now sm gm).feedback = s.feedback ∧
    (preSaveSubmission s a? now sm gm).gradedBy = s.gradedBy := by
  unfold preSaveSubmission
  dsimp only
  rcases a? with _ | a <;> (repeat' split) <;> simp

/-- With `gradeModified = false` the hook also leaves `status`, `grade`,
`gradedAt` untouched. -/
theorem preSaveSubmission_no_grade (s : Submission) (a? : Option Assignment) (now : Int)
    (sm : Bool) :
    (preSaveSubmission s a? now sm false).status = s.status ∧
    (preSaveSubmission s a? now sm false).gradedAt = s.gradedAt := by
  unfold preSaveSubmission
  dsimp only
  rcases a? with _ | a <;> (repeat' split) <;> simp_all

/-- While `submittedAt` is already set the hook leaves `submittedAt`,
`isLate`, `lateByDays` and `penaltyApplied` untouched. -/
theorem preSaveSubmission_submitted_frame (s : Submission) (a? : Option Assignment)
    (now : Int) (sm gm : Bool) (h : s.submittedAt ≠ none) :
    (preSaveSubmission s a? now sm gm).submittedAt = s.submittedAt ∧
    (preSaveSubmission s a? now sm gm).isLate = s.isLate ∧
    (preSaveSubmission s a? now sm gm).lateByDays = s.lateByDays ∧
    (preSaveSubmission s a? now sm gm).penaltyApplied = s.penaltyApplied := by
  unfold preSaveSubmission
  dsimp only
  have hb : (s.submittedAt == none) = false := by
    cases hx : s.submittedAt with
    | none => exact absurd hx h
    | some t => rfl
  simp only [hb, Bool.and_false, Bool.false_and, if_neg Bool.false_ne_true]
  (repeat' split) <;> simp

/-- Replacing, by id, an element of a list with distinct ids by a document
with the same id preserves any count that agrees on the old and new
document. -/
theorem countP_replace_by_id {l : List Submission} {sub saved : Submission}
    (hnd : (l.map (fun s => s.id)).Nodup) (hmem : sub ∈ l)
    (hid : saved.id = sub.id) (p : Submission → Bool) (hp : p saved = p sub) :
    (l.map (fun t => if t.id == saved.id then saved else t)).countP p = l.countP p := by
  induction l with
  | nil => simp
  | cons h t ih =>
    simp only [List.map_cons, List.nodup_cons, List.mem_map] at hnd
    rcases hnd with ⟨hhid, hndt⟩
    rcases List.mem_cons.mp hmem with rfl | hmemt
    · have ht : t.map (fun x => if x.id == saved.id then saved else x) = t := by
        have hall : ∀ x ∈ t, (if x.id == saved.id then saved else x) = x := by
          intro x hx
          have hne : x.id ≠ saved.id := by
            rw [hid]
            intro hcontra
            exact hhid ⟨x, hx, hcontra⟩
          simp [hne]
        calc t.map (fun x => if x.id == saved.id then saved else x)
            = t.map id := List.map_congr_left (by simpa using hall)
          _ = t := List.map_id t
      have hhead : (sub.id == saved.id) = true := by simp [hid]
      have hfs : (if sub.id == saved.id then saved else sub) = saved := if_pos hhead
      rw [List.map_cons, List.countP_cons, List.countP_cons, ht, hfs, hp]
    · have hb : ¬ ((h.id == saved.id) = true) := by
        simp only [beq_iff_eq, hid]
        intro hcontra
        exact hhid ⟨sub, hmemt, hcontra.symm⟩
      have hfh : (if h.id == saved.id then saved else h) = h := if_neg hb
      rw [List.map_cons, List.countP_cons, List.countP_cons, hfh, ih hndt hmemt]

/-- Saving a document never changes the stored sequence of ids. -/
theorem saveSubmission_ids (db : DB) (s : Submission) :
    (db.saveSubmission s).submissions.map (fun t => t.id) =
      db.submissions.map (fun t => t.id) := by
  unfold DB.saveSubmission
  dsimp only
  rw [List.map_map]
  refine List.map_congr_left ?_
  intro t _
  by_cases h : t.id = s.id
  · simp [Function.comp, h]
  · simp [Function.comp, h]

/-- Saving a document also keeps the other store components and `nextId`. -/
theorem saveSubmission_parts (db : DB) (s : Submission) :
    (db.saveSubmission s).assignments = db.assignments ∧
    (db.saveSubmission s).classrooms = db.classrooms ∧
    (db.saveSubmission s).nextId = db.nextId := by
  unfold DB.saveSubmission
  exact ⟨rfl, rfl, rfl⟩

/-- A successful pair lookup returns a stored submission of that pair. -/
theorem findSubmissionPair_sound {db : DB} {aid stu : Nat} {sub : Submission}
    (h : db.findSubmissionPair aid stu = some sub) :
    sub ∈ db.submissions ∧ sub.assignment = aid ∧ sub.student = stu := by
  unfold DB.findSubmissionPair at h
  refine ⟨List.mem_of_find?_eq_some h, ?_, ?_⟩
  · have := List.find?_some h
    simp only [Bool.and_eq_true, beq_iff_eq] at this
    exact this.1
  · have := List.find?_some h
    simp only [Bool.and_eq_true, beq_iff_eq] at this
    exact this.2

/-- A successful id lookup returns a stored submission with that id. -/
theorem findSubmissionById_sound {db : DB} {sid : Nat} {sub : Submission}
    (h : db.findSubmissionById sid = some sub) :
    sub ∈ db.submissions ∧ sub.id = sid := by
  unfold DB.findSubmissionById at h
  refine ⟨List.mem_of_find?_eq_some h, ?_⟩
  have := List.find?_some h
  simpa using this

/-- The pair lookup misses exactly when the pair count is zero. -/
theorem findSubmissionPair_none_iff (db : DB) (aid stu : Nat) :
    db.findSubmissionPair aid stu = none ↔ pairCount db aid stu = 0 := by
  unfold DB.findSubmissionPair pairCount
  rw [List.find?_eq_none, List.countP_eq_zero]

/-! ### Concrete fixtures used by witnesses and counterexamples -/

/-- A classroom owned by teacher 100 with student 1 enrolled. -/
def classFix : Classroom := { id := 0, teacher := 100, students := [1] }

/-- A published assignment in that classroom: due at time 0, 100 points,
late submissions allowed with a 5-points-per-day penalty. -/
def asgFix : Assignment :=
  { id := 10, classroom := 0, teacher := 100, dueDate := 0, totalPoints := 100,
    allowLateSubmission := true, lateSubmissionPenalty := 5, status := .published }

/-- The same assignment but in status `closed`. -/
def asgClosed : Assignment := { asgFix with id := 11, status := .closed }

/-- The same assignment but still in status `draft`. -/
def asgUnpublished : Assignment := { asgFix with id := 12, status := .draft }

/-- A draft submission of student 1 with stored content `"old"`. -/
def subDraft : Submission :=
  { id := 0, assignment := 10, student := 1, classroom := 0, content := some "old",
    status := .draft }

/-- A submitted submission of student 1 (submitted on time at t = -5). -/
def subSubmitted : Submission :=
  { id := 1, assignment := 10, student := 1, classroom := 0, status := .submitted,
    submittedAt := some (-5) }

/-- An already graded submission of student 1. -/
def subGraded : Submission :=
  { id := 2, assignment := 10, student := 1, classroom := 0, status := .graded,
    grade := some 50, gradedBy := some 100, gradedAt := some 4 }

/-- A submission that is entering `submitted` for the first time. -/
def subPendingSubmit : Submission :=
  { id := 5, assignment := 10, student := 1, classroom := 0, status := .submitted }

/-- Update request providing new content and requesting `submitted`. -/
def reqResubmit : SubmissionReq :=
  { assignment := some 10, content := some "new", status := some .submitted }

/-- Expected result of a feedback-only grading call on `subSubmitted`:
status moves to `graded` but `gradedAt` stays unset. -/
def gradedNoStamp : Submission :=
  { subSubmitted with
    feedback := some "good", gradedBy := some 100,
    status := .graded, updatedAt := 77 }

/-- Create request for the published fixture with content `"x"`. -/
def reqCreateX : SubmissionReq := { assignment := some 10, content := some "x" }

/-- The submission `reqCreateX` creates in the empty fixture store. -/
def subCreatedX : Submission :=
  { id := 0, assignment := 10, student := 1, classroom := 0, content := some "x" }

/-- Grading request carrying only a grade of 80. -/
def reqGrade80 : GradeReq := { grade := some 80 }

/-- Store with no submissions yet. -/
def dbEmpty : DB :=
  { classrooms := [classFix], assignments := [asgFix, asgClosed, asgUnpublished],
    submissions := [], nextId := 0 }

/-- Store holding the draft submission. -/
def dbDraftSub : DB := { dbEmpty with submissions := [subDraft], nextId := 1 }

/-- Store holding the submitted submission. -/
def dbSubmittedSub : DB := { dbEmpty with submissions := [subSubmitted], nextId := 2 }

/-- Store holding the graded submission. -/
def dbGradedSub : DB := { dbEmpty with submissions := [subGraded], nextId := 3 }

/-! ### Behaviour of the submit transition -/

/-- Characterization of the pre-save hook on a first transition into
`submitted`: `submittedAt` is stamped and the lateness fields are derived
from the due date. -/
theorem preSave_submit_run (s : Submission) (a : Assignment) (now : Int) (gm : Bool)
    (hStatus : s.status = .submitted) (hUnset : s.submittedAt = none) :
    (preSaveSubmission s (some a) now true gm).submittedAt = some now ∧
    (preSaveSubmission s (some a) now true gm).isLate =
      (if now > a.dueDate then true else s.isLate) ∧
    (preSaveSubmission s (some a) now true gm).lateByDays =
      (if now > a.dueDate then jsCeil ((|now - a.dueDate| : ℤ) / (dayMs : ℚ))
       else s.lateByDays) ∧
    (preSaveSubmission s (some a) now true gm).penaltyApplied =
      (if now > a.dueDate ∧ a.lateSubmissionPenalty > 0
       then a.lateSubmissionPenalty * (jsCeil ((|now - a.dueDate| : ℤ) / (dayMs : ℚ)) : ℚ)
       else s.penaltyApplied) := by
  unfold preSaveSubmission
  dsimp only
  simp only [hStatus, hUnset, beq_self_eq_true, Bool.and_self, Bool.true_and, if_true]
  by_cases hd : now > a.dueDate <;> by_cases hp : a.lateSubmissionPenalty > 0 <;>
    (repeat' split) <;> simp_all

/-- Claim C1: On a submission's first transition into `submitted` (create or
update, while `submittedAt` is unset) the pre-save derivation sets
`submittedAt = now`, sets `isLate` exactly when `submittedAt > dueDate`,
and when late sets `lateByDays = ceil(|submittedAt - dueDate| / 1 day)`
and, when `lateSubmissionPenalty > 0`,
`penaltyApplied = lateSubmissionPenalty * lateByDays` with no cap.  For
`dueDate = D`, `submittedAt = D + 3 days`, `lateSubmissionPenalty = 5`
this gives `isLate = true`, `lateByDays = 3`, `penaltyApplied = 15`. -/
theorem submit_transition_derivation (s : Submission) (a : Assignment) (now : Int)
    (gm : Bool) (hUnset : s.submittedAt = none) (hStatus : s.status = .submitted)
    (hNotLate : s.isLate = false) :
    (preSaveSubmission s (some a) now true gm).submittedAt = some now ∧
    ((preSaveSubmission s (some a) now true gm).isLate = true ↔ now > a.dueDate) ∧
    (now > a.dueDate →
      (preSaveSubmission s (some a) now true gm).lateByDays =
        jsCeil ((|now - a.dueDate| : ℤ) / (dayMs : ℚ)) ∧
      (a.lateSubmissionPenalty > 0 →
        (preSaveSubmission s (some a) now true gm).penaltyApplied =
          a.lateSubmissionPenalty *
            ((preSaveSubmission s (some a) now true gm).lateByDays : ℚ))) ∧
    (now = a.dueDate + 3 * dayMs → a.lateSubmissionPenalty = 5 →
      (preSaveSubmission s (some a) now true gm).isLate = true ∧
      (preSaveSubmission s (some a) now true gm).lateByDays = 3 ∧
      (preSaveSubmission s (some a) now true gm).penaltyApplied = 15) := by
  obtain ⟨h1, h2, h3, h4⟩ := preSave_submit_run s a now gm hStatus hUnset
  have hdaypos : (0 : ℤ) < dayMs := by norm_num [dayMs]
  refine ⟨h1, ?_, ?_, ?_⟩
  · rw [h2]
    by_cases hd : now > a.dueDate <;> simp [hd, hNotLate]
  · intro hd
    refine ⟨by rw [h3, if_pos hd], ?_⟩
    intro hp
    rw [h4, if_pos ⟨hd, hp⟩, h3, if_pos hd]
  · intro hnow hpen
    have hd : now > a.dueDate := by rw [hnow]; omega
    have hsub : now - a.dueDate = 3 * dayMs := by rw [hnow]; ring
    have habs : (|now - a.dueDate| : ℤ) = 3 * dayMs := by
      rw [hsub]
      exact abs_of_nonneg (by omega)
    have hdays : jsCeil ((|now - a.dueDate| : ℤ) / (dayMs : ℚ)) = 3 := by
      rw [habs]
      have hq : ((3 * dayMs : ℤ) : ℚ) / (dayMs : ℚ) = 3 := by
        push_cast
        field_simp
      rw [hq]
      simp [jsCeil]
    refine ⟨by rw [h2, if_pos hd], by rw [h3, if_pos hd, hdays], ?_⟩
    rw [h4, if_pos ⟨hd, by rw [hpen]; norm_num⟩, hdays, hpen]
    norm_num

/-- Witness for `submit_transition_derivation`: a concrete submission
entering `submitted` three days after the due date of `asgFix`
(penalty 5) gets `isLate`, `lateByDays = 3`, `penaltyApplied = 15`. -/
theorem submit_transition_derivation_witness :
    (preSaveSubmission subPendingSubmit (some asgFix) (3 * dayMs) true false).isLate = true ∧
    (preSaveSubmission subPendingSubmit (some asgFix) (3 * dayMs) true false).lateByDays = 3 ∧
    (preSaveSubmission subPendingSubmit (some asgFix) (3 * dayMs) true false).penaltyApplied = 15 :=
  (submit_transition_derivation subPendingSubmit asgFix (3 * dayMs) false rfl rfl rfl).2.2.2
    (by norm_num [asgFix, dayMs]) (by norm_num [asgFix])

/-- Claim C2: for a submission with a non-null grade, `finalGrade` is
`max(0, grade - penaltyApplied)` rounded to 2 decimals and
`gradePercentage` is `round(finalGrade / totalPoints * 100)`; with no
grade both are null; for `grade = 80`, `penaltyApplied = 15`,
`totalPoints = 100` this gives `finalGrade = 65`, `gradePercentage = 65`. -/
theorem final_grade_derivation (s : Submission) (a : Assignment) (g : ℚ)
    (hg : s.grade = some g) (htp : a.totalPoints ≠ 0) :
    finalGrade s = some (roundTo2 (max 0 (g - s.penaltyApplied))) ∧
    gradePercentage s (some a) =
      some (jsRound (roundTo2 (max 0 (g - s.penaltyApplied)) / a.totalPoints * 100)) ∧
    (∀ t : Submission, t.grade = none →
      finalGrade t = none ∧ gradePercentage t (some a) = none) ∧
    (g = 80 → s.penaltyApplied = 15 → a.totalPoints = 100 →
      finalGrade s = some 65 ∧ gradePercentage s (some a) = some 65) := by
  have hfg : finalGrade s = some (roundTo2 (max 0 (g - s.penaltyApplied))) := by
    simp [finalGrade, hg]
  refine ⟨hfg, ?_, ?_, ?_⟩
  · simp [gradePercentage, hfg, htp]
  · intro t ht
    simp [finalGrade, gradePercentage, ht]
  · intro h80 h15 h100
    subst h80
    have hfg65 : finalGrade s = some 65 := by
      rw [hfg, h15]
      norm_num [roundTo2, jsRound]
    refine ⟨hfg65, ?_⟩
    simp only [gradePercentage, hfg65, h100]
    norm_num [jsRound]

/-- Witness for `final_grade_derivation`: the graded fixture submission
with penalty 15 against a 100-point assignment. -/
theorem final_grade_derivation_witness :
    finalGrade { subGraded with grade := some 80, penaltyApplied := 15 } = some 65 ∧
    gradePercentage { subGraded with grade := some 80, penaltyApplied := 15 }
      (some asgFix) = some 65 :=
  (final_grade_derivation { subGraded with grade := some 80, penaltyApplied := 15 }
    asgFix 80 rfl (by norm_num [asgFix])).2.2.2 rfl rfl rfl

/-- Claim C6: the create/update operation checks its preconditions in order —
missing assignment → NOT_FOUND (regardless of anything else); unpublished →
VALIDATION_ERROR (regardless of enrollment); not enrolled → FORBIDDEN
(regardless of the due date); past due without `allowLateSubmission` →
VALIDATION_ERROR — each with no mutation of the store. -/
theorem create_precondition_order (db : DB) (u : Nat) (req : SubmissionReq)
    (now : Int) (aid : Nat) (hreq : req.assignment = some aid) :
    (db.findAssignment aid = none →
      createSubmission db u req now = (db, .error (.notFound "Assignment not found"))) ∧
    (∀ asg : Assignment, db.findAssignment aid = some asg → asg.status ≠ .published →
      createSubmission db u req now =
        (db, .error (.validationError "Cannot submit to unpublished assignment"))) ∧
    (∀ (asg : Assignment) (c : Classroom), db.findAssignment aid = some asg →
      asg.status = .published → db.findClassroom asg.classroom = some c →
      c.students.contains u = false →
      createSubmission db u req now =
        (db, .error (.forbidden "You are not enrolled in this classroom"))) ∧
    (∀ (asg : Assignment) (c : Classroom), db.findAssignment aid = some asg →
      asg.status = .published → db.findClassroom asg.classroom = some c →
      c.students.contains u = true → asg.allowLateSubmission = false →
      now > asg.dueDate →
      createSubmission db u req now =
        (db, .error (.validationError
          "This assignment no longer accepts submissions (past due date)"))) := by
  refine ⟨?_, ?_, ?_, ?_⟩
  · intro hnone
    simp [createSubmission, hreq, hnone]
  · intro asg hasg hstat
    simp [createSubmission, hreq, hasg, hstat]
  · intro asg c hasg hstat hc henr
    have henr' : u ∉ c.students := by simpa using henr
    simp [createSubmission, hreq, hasg, hstat, hc, henr']
  · intro asg c hasg hstat hc henr hlate hdue
    have henr' : u ∈ c.students := by simpa using henr
    simp [createSubmission, hreq, hasg, hstat, hc, henr', hlate, hdue]

/-- Witness for `create_precondition_order`: a non-enrolled student (id 2)
on the published fixture assignment receives FORBIDDEN, not NOT_FOUND. -/
theorem create_precondition_order_witness :
    createSubmission dbEmpty 2 { assignment := some 10 } 0 =
      (dbEmpty, .error (.forbidden "You are not enrolled in this classroom")) :=
  (create_precondition_order dbEmpty 2 { assignment := some 10 } 0 10 rfl).2.2.1
    asgFix classFix (by decide) rfl (by decide) (by decide)

/-- Claim C10: a `closed` assignment is rejected by the submission operation
with exactly the same VALIDATION_ERROR (status 400, same message) as a
`draft` assignment, because the guard tests `status !== 'published'`. -/
theorem closed_assignment_rejected (db : DB) (u : Nat) (req : SubmissionReq)
    (now : Int) (aid : Nat) (asg : Assignment)
    (hreq : req.assignment = some aid) (hasg : db.findAssignment aid = some asg) :
    (asg.status = .closed →
      createSubmission db u req now =
        (db, .error (.validationError "Cannot submit to unpublished assignment"))) ∧
    (asg.status = .draft →
      createSubmission db u req now =
        (db, .error (.validationError "Cannot submit to unpublished assignment"))) ∧
    (ApiError.validationError "Cannot submit to unpublished assignment").statusCode = 400 := by
  refine ⟨?_, ?_, rfl⟩ <;>
    { intro h
      simp [createSubmission, hreq, hasg, h] }

/-- Witness for `closed_assignment_rejected`: the fixture's closed
assignment (id 11) rejects student 1's submission with the unpublished
message. -/
theorem closed_assignment_rejected_witness :
    createSubmission dbEmpty 1 { assignment := some 11 } 0 =
      (dbEmpty, .error (.validationError "Cannot submit to unpublished assignment")) :=
  (closed_assignment_rejected dbEmpty 1 { assignment := some 11 } 0 11 asgClosed
    rfl (by decide)).1 rfl

/-- Claim C4: once a submission is `graded` or `returned`, the owning
student's create/update call fails with the grading-lock VALIDATION_ERROR
(status 400) and mutates nothing, and the student's delete call fails with
VALIDATION_ERROR and deletes nothing, for every payload. -/
theorem grading_lock (db : DB) (u : Nat) (req : SubmissionReq) (now : Int)
    (aid : Nat) (asg : Assignment) (c : Classroom) (sub : Submission)
    (hreq : req.assignment = some aid)
    (hasg : db.findAssignment aid = some asg)
    (hstat : asg.status = .published)
    (hc : db.findClassroom asg.classroom = some c)
    (henr : c.students.contains u = true)
    (hdue : asg.allowLateSubmission = true ∨ now ≤ asg.dueDate)
    (hpair : db.findSubmissionPair aid u = some sub)
    (hlock : sub.status = .graded ∨ sub.status = .returned)
    (hbyid : db.findSubmissionById sub.id = some sub) :
    createSubmission db u req now =
      (db, .error (.validationError "Cannot modify submission after it has been graded")) ∧
    deleteSubmission db u sub.id =
      (db, .error (.validationError "Cannot delete submission after it has been graded")) ∧
    (ApiError.validationError "Cannot modify submission after it has been graded").statusCode
      = 400 := by
  obtain ⟨-, -, hstu⟩ := findSubmissionPair_sound hpair
  refine ⟨?_, ?_, rfl⟩
  · have henr' : u ∈ c.students := by simpa using henr
    have hdue' : ¬ (asg.allowLateSubmission = false ∧ asg.dueDate < now) := by
      rcases hdue with h | h
      · intro hcontra
        rw [h] at hcontra
        exact absurd hcontra.1 (by simp)
      · intro hcontra
        exact absurd hcontra.2 (not_lt.mpr h)
    simp [createSubmission, hreq, hasg, hstat, hc, henr', hdue', hpair, hlock]
  · simp [deleteSubmission, hbyid, hstu, hlock]

/-- Witness for `grading_lock`: student 1 can neither re-submit nor delete
the graded fixture submission. -/
theorem grading_lock_witness :
    createSubmission dbGradedSub 1
        { assignment := some 10, content := some "new" } 0 =
      (dbGradedSub, .error
        (.validationError "Cannot modify submission after it has been graded")) ∧
    deleteSubmission dbGradedSub 1 subGraded.id =
      (dbGradedSub, .error
        (.validationError "Cannot delete submission after it has been graded")) :=
  ⟨(grading_lock dbGradedSub 1 { assignment := some 10, content := some "new" } 0
      10 asgFix classFix subGraded rfl (by decide) rfl (by decide) (by decide)
      (Or.inl rfl) (by decide) (Or.inl rfl) (by decide)).1,
   (grading_lock dbGradedSub 1 { assignment := some 10, content := some "new" } 0
      10 asgFix classFix subGraded rfl (by decide) rfl (by decide) (by decide)
      (Or.inl rfl) (by decide) (Or.inl rfl) (by decide)).2.1⟩

/-- Claim C5: grading with a grade outside `[0, totalPoints]` fails with a
VALIDATION_ERROR whose message states the bound, leaving the store (hence
the submission) entirely unchanged. -/
theorem grade_bound_rejected (db : DB) (u sid : Nat) (req : GradeReq) (now : Int)
    (sub : Submission) (asg : Assignment) (g : ℚ)
    (hsub : db.findSubmissionById sid = some sub)
    (hasg : db.findAssignment sub.assignment = some asg)
    (hteach : asg.teacher = u)
    (hg : req.grade = some g)
    (hbad : g < 0 ∨ g > asg.totalPoints) :
    gradeSubmission db u sid req now =
      (db, .error (.validationError
        ("Grade must be between 0 and " ++ toString asg.totalPoints))) ∧
    (ApiError.validationError
        ("Grade must be between 0 and " ++ toString asg.totalPoints)).statusCode = 400 := by
  refine ⟨?_, rfl⟩
  have hb : (match req.grade with
             | some g => decide (g < 0) || decide (g > asg.totalPoints)
             | none => false) = true := by
    rw [hg]
    rcases hbad with h | h <;> simp [h]
  simp [gradeSubmission, hsub, hasg, hteach, hb]

/-- Witness for `grade_bound_rejected`: grading the submitted fixture with
`totalPoints + 1 = 101` fails with the bound in the message and no change
to the store. -/
theorem grade_bound_rejected_witness :
    gradeSubmission dbSubmittedSub 100 1 { grade := some 101 } 9 =
      (dbSubmittedSub, .error (.validationError "Grade must be between 0 and 100")) :=
  (grade_bound_rejected dbSubmittedSub 100 1 { grade := some 101 } 9
    subSubmitted asgFix 101 (by decide) (by decide) rfl rfl
    (Or.inr (by norm_num [asgFix]))).1

/-- Successful update path of `createSubmission`: when all guards pass and
the stored pair submission is still open, the provided fields are merged
with JS `||` semantics, the pre-save hook runs, and the document is saved
and returned. -/
theorem createSubmission_update_path (db : DB) (u : Nat) (req : SubmissionReq)
    (now : Int) (aid : Nat) (asg : Assignment) (c : Classroom) (sub : Submission)
    (hreq : req.assignment = some aid)
    (hasg : db.findAssignment aid = some asg)
    (hstat : asg.status = .published)
    (hc : db.findClassroom asg.classroom = some c)
    (henr : c.students.contains u = true)
    (hdue : asg.allowLateSubmission = true ∨ now ≤ asg.dueDate)
    (hpair : db.findSubmissionPair aid u = some sub)
    (hopen : sub.status = .draft ∨ sub.status = .submitted) :
    createSubmission db u req now =
      (db.saveSubmission (preSaveSubmission { sub with
          content := if jsStrTruthy req.content then req.content else sub.content,
          attachments := req.attachments.getD sub.attachments,
          status := req.status.getD sub.status } (some asg) now
          (req.status.getD sub.status ≠ sub.status) false),
       .ok (preSaveSubmission { sub with
          content := if jsStrTruthy req.content then req.content else sub.content,
          attachments := req.attachments.getD sub.attachments,
          status := req.status.getD sub.status } (some asg) now
          (req.status.getD sub.status ≠ sub.status) false)) := by
  have henr' : u ∈ c.students := by simpa using henr
  have hdue' : ¬ (asg.allowLateSubmission = false ∧ asg.dueDate < now) := by
    rcases hdue with h | h
    · intro hcontra
      rw [h] at hcontra
      exact absurd hcontra.1 (by simp)
    · intro hcontra
      exact absurd hcontra.2 (not_lt.mpr h)
  have hlock : ¬ (sub.status = .graded ∨ sub.status = .returned) := by
    rcases hopen with h | h <;> simp [h]
  simp [createSubmission, hreq, hasg, hstat, hc, henr', hdue', hpair, hlock]

/-- Claim C7, counterexample: the claim says a provided `content` always
overrides the stored value, but the JS merge `content || submission.content`
treats a provided empty string as absent: updating the draft fixture (stored
content `"old"`) with `content = ""` succeeds yet returns content `"old"`,
not `""`. -/
theorem update_content_empty_not_applied :
    (createSubmission dbDraftSub 1 { assignment := some 10, content := some "" } 5).2 =
      .ok { subDraft with updatedAt := 5 } ∧
    (Submission.content { subDraft with updatedAt := 5 } = some "old") ∧
    (some "" : Option String) ≠ some "old" := by
  decide

/-- Claim C7, amended: on the update path, `attachments` and `status` override
the stored values exactly when provided, while `content` overrides exactly
when provided *truthy* (non-empty — a provided empty string is retained as
the old content); the merged record is persisted and returned. -/
theorem update_merge_semantics (db : DB) (u : Nat) (req : SubmissionReq)
    (now : Int) (aid : Nat) (asg : Assignment) (c : Classroom) (sub : Submission)
    (hreq : req.assignment = some aid)
    (hasg : db.findAssignment aid = some asg)
    (hstat : asg.status = .published)
    (hc : db.findClassroom asg.classroom = some c)
    (henr : c.students.contains u = true)
    (hdue : asg.allowLateSubmission = true ∨ now ≤ asg.dueDate)
    (hpair : db.findSubmissionPair aid u = some sub)
    (hopen : sub.status = .draft ∨ sub.status = .submitted) :
    ∃ saved : Submission,
      createSubmission db u req now = (db.saveSubmission saved, .ok saved) ∧
      saved.content = (if jsStrTruthy req.content then req.content else sub.content) ∧
      saved.attachments = req.attachments.getD sub.attachments ∧
      saved.status = req.status.getD sub.status := by
  refine ⟨_, createSubmission_update_path db u req now aid asg c sub
    hreq hasg hstat hc henr hdue hpair hopen, ?_, ?_, ?_⟩
  · exact ((preSaveSubmission_frame _ (some asg) now _ false).2.2.2.2.1)
  · exact ((preSaveSubmission_frame _ (some asg) now _ false).2.2.2.2.2.1)
  · exact ((preSaveSubmission_no_grade _ (some asg) now _).1)

/-- Witness for `update_merge_semantics`: student 1 updates the draft
fixture with new content and requests `submitted`. -/
theorem update_merge_semantics_witness :
    ∃ saved : Submission,
      createSubmission dbDraftSub 1 reqResubmit 7 =
        (dbDraftSub.saveSubmission saved, .ok saved) ∧
      saved.content =
        (if jsStrTruthy reqResubmit.content then reqResubmit.content
         else subDraft.content) ∧
      saved.attachments = reqResubmit.attachments.getD subDraft.attachments ∧
      saved.status = reqResubmit.status.getD subDraft.status :=
  update_merge_semantics dbDraftSub 1 reqResubmit 7 10 asgFix classFix subDraft
    rfl (by decide) rfl (by decide) (by decide) (Or.inl rfl) (by decide) (Or.inl rfl)

/-- Claim C8: the submit-time derivation only fires while `submittedAt` is
unset; a second update call on an already-`submitted` record that does not
change status leaves `submittedAt`, `isLate` and `lateByDays` unchanged. -/
theorem resubmit_idempotent (db : DB) (u : Nat) (req : SubmissionReq)
    (now : Int) (aid : Nat) (asg : Assignment) (c : Classroom) (sub : Submission)
    (t : Int)
    (hreq : req.assignment = some aid)
    (hasg : db.findAssignment aid = some asg)
    (hstat : asg.status = .published)
    (hc : db.findClassroom asg.classroom = some c)
    (henr : c.students.contains u = true)
    (hdue : asg.allowLateSubmission = true ∨ now ≤ asg.dueDate)
    (hpair : db.findSubmissionPair aid u = some sub)
    (hsubst : sub.status = .submitted)
    (hset : sub.submittedAt = some t)
    (hreqst : req.status = some .submitted ∨ req.status = none) :
    (∀ (s : Submission) (a? : Option Assignment) (n : Int) (sm gm : Bool),
        s.submittedAt ≠ none →
        (preSaveSubmission s a? n sm gm).submittedAt = s.submittedAt ∧
        (preSaveSubmission s a? n sm gm).isLate = s.isLate ∧
        (preSaveSubmission s a? n sm gm).lateByDays = s.lateByDays) ∧
    (∃ saved : Submission,
      createSubmission db u req now = (db.saveSubmission saved, .ok saved) ∧
      saved.submittedAt = some t ∧ saved.isLate = sub.isLate ∧
      saved.lateByDays = sub.lateByDays) := by
  constructor
  · intro s a? n sm gm h
    obtain ⟨h1, h2, h3, -⟩ := preSaveSubmission_submitted_frame s a? n sm gm h
    exact ⟨h1, h2, h3⟩
  · obtain ⟨h1, h2, h3, -⟩ := preSaveSubmission_submitted_frame
      { sub with
        content := if jsStrTruthy req.content then req.content else sub.content,
        attachments := req.attachments.getD sub.attachments,
        status := req.status.getD sub.status } (some asg) now
      (decide (req.status.getD sub.status ≠ sub.status)) false (by simp [hset])
    refine ⟨_, createSubmission_update_path db u req now aid asg c sub
      hreq hasg hstat hc henr hdue hpair (Or.inr hsubst), ?_, ?_, ?_⟩
    · rw [h1]
      exact hset
    · rw [h2]
    · rw [h3]

/-- Witness for `resubmit_idempotent`: re-submitting the already-submitted
fixture (submitted at t = -5) at time 7 keeps `submittedAt = -5` and the
lateness fields. -/
theorem resubmit_idempotent_witness :
    ∃ saved : Submission,
      createSubmission dbSubmittedSub 1 reqResubmit 7 =
        (dbSubmittedSub.saveSubmission saved, .ok saved) ∧
      saved.submittedAt = some (-5) ∧ saved.isLate = subSubmitted.isLate ∧
      saved.lateByDays = subSubmitted.lateByDays :=
  (resubmit_idempotent dbSubmittedSub 1 reqResubmit 7 10 asgFix classFix
    subSubmitted (-5) rfl (by decide) rfl (by decide) (by decide) (Or.inl rfl)
    (by decide) rfl rfl (Or.inl rfl)).2

/-- On a document whose status is already `graded` when saved, the hook
keeps the status and stamps `gradedAt` exactly when the grade was modified
to a set value while `gradedAt` was unset. -/
theorem preSave_graded_status (s : Submission) (a? : Option Assignment) (now : Int)
    (sm gm : Bool) (h : s.status = .graded) :
    (preSaveSubmission s a? now sm gm).status = .graded ∧
    (preSaveSubmission s a? now sm gm).gradedAt =
      (if gm = true ∧ s.grade ≠ none ∧ s.gradedAt = none then some now
       else s.gradedAt) := by
  unfold preSaveSubmission
  dsimp only
  have hb : (s.status == SubStatus.submitted) = false := by simp [h]
  simp only [hb, Bool.and_false, Bool.false_and, if_neg Bool.false_ne_true]
  by_cases hg : gm = true ∧ s.grade ≠ none ∧ s.gradedAt = none
  · obtain ⟨h1, h2, h3⟩ := hg
    have hcond : (gm && !(s.grade == none) && (s.gradedAt == none)) = true := by
      simp [h1, h2, h3]
    simp [hcond, h, h1, h2, h3, hb]
  · have hcond : (gm && !(s.grade == none) && (s.gradedAt == none)) = false := by
      rcases Decidable.not_and_iff_or_not.mp hg with h1 | h1
      · simp [Bool.eq_false_iff.mpr h1]
      · rcases Decidable.not_and_iff_or_not.mp h1 with h2 | h2
        · simp only [ne_eq, not_not] at h2
          simp [h2]
        · have : (s.gradedAt == none) = false := by
            cases hx : s.gradedAt with
            | none => exact absurd hx h2
            | some v => rfl
          simp [this]
    simp [hcond, h, hg]

/-- Successful path of `gradeSubmission`: all guards pass, the grading
fields are set and the document is saved through the hook. -/
theorem gradeSubmission_success_path (db : DB) (u sid : Nat) (req : GradeReq)
    (now : Int) (sub : Submission) (asg : Assignment)
    (hsub : db.findSubmissionById sid = some sub)
    (hasg : db.findAssignment sub.assignment = some asg)
    (hteach : asg.teacher = u)
    (hok : ∀ g : ℚ, req.grade = some g → 0 ≤ g ∧ g ≤ asg.totalPoints) :
    gradeSubmission db u sid req now =
      (db.saveSubmission (preSaveSubmission { sub with
          grade := req.grade, feedback := req.feedback,
          gradedBy := some u, status := .graded } (some asg) now
          ((SubStatus.graded : SubStatus) ≠ sub.status) (req.grade ≠ sub.grade)),
       .ok (preSaveSubmission { sub with
          grade := req.grade, feedback := req.feedback,
          gradedBy := some u, status := .graded } (some asg) now
          ((SubStatus.graded : SubStatus) ≠ sub.status) (req.grade ≠ sub.grade))) := by
  have hb : (match req.grade with
             | some g => decide (g < 0) || decide (g > asg.totalPoints)
             | none => false) = false := by
    cases hg : req.grade with
    | none => rfl
    | some g =>
      obtain ⟨h1, h2⟩ := hok g hg
      simp [not_lt.mpr h1, not_lt.mpr h2]
  simp [gradeSubmission, hsub, hasg, hteach, hb]

/-- Claim C9, counterexample: the claim says every successful grading call
stamps `gradedAt = now` on the first grading, but a feedback-only first
grading call (no grade provided) succeeds while leaving `gradedAt` unset:
the hook stamps it only when `isModified('grade') && grade !== undefined`. -/
theorem grading_without_grade_no_timestamp :
    (gradeSubmission dbSubmittedSub 100 1 { feedback := some "good" } 77).2 =
      .ok gradedNoStamp ∧
    gradedNoStamp.gradedAt = none ∧
    gradedNoStamp.gradedAt ≠ some 77 ∧
    gradedNoStamp.status = .graded := by
  decide

/-- Claim C9, amended: every successful grading call sets `grade := provided
grade`, `feedback := provided feedback`, `gradedBy = teacher`, `status =
graded`; `gradedAt` is stamped with `now` exactly when the call provides a
grade that differs from the stored one while `gradedAt` is unset, and is
otherwise left unchanged (so it is set once, on the first grading call
providing a grade, and repeat grading is unrestricted). -/
theorem grading_effect (db : DB) (u sid : Nat) (req : GradeReq) (now : Int)
    (sub : Submission) (asg : Assignment)
    (hsub : db.findSubmissionById sid = some sub)
    (hasg : db.findAssignment sub.assignment = some asg)
    (hteach : asg.teacher = u)
    (hok : ∀ g : ℚ, req.grade = some g → 0 ≤ g ∧ g ≤ asg.totalPoints) :
    ∃ saved : Submission,
      gradeSubmission db u sid req now = (db.saveSubmission saved, .ok saved) ∧
      saved.grade = req.grade ∧ saved.feedback = req.feedback ∧
      saved.gradedBy = some u ∧ saved.status = .graded ∧
      saved.gradedAt =
        (if req.grade ≠ sub.grade ∧ req.grade ≠ none ∧ sub.gradedAt = none
         then some now else sub.gradedAt) := by
  refine ⟨_, gradeSubmission_success_path db u sid req now sub asg hsub hasg hteach hok,
    ?_, ?_, ?_, ?_, ?_⟩
  · exact (preSaveSubmission_frame _ (some asg) now _ _).2.2.2.2.2.2.1
  · exact (preSaveSubmission_frame _ (some asg) now _ _).2.2.2.2.2.2.2.1
  · exact (preSaveSubmission_frame _ (some asg) now _ _).2.2.2.2.2.2.2.2
  · exact (preSave_graded_status _ (some asg) now _ _ rfl).1
  · have hpg := (preSave_graded_status { sub with
      grade := req.grade, feedback := req.feedback,
      gradedBy := some u, status := .graded } (some asg) now
      (decide ((SubStatus.graded : SubStatus) ≠ sub.status))
      (decide (req.grade ≠ sub.grade)) rfl).2
    rw [hpg]
    by_cases hcond : req.grade ≠ sub.grade ∧ req.grade ≠ none ∧ sub.gradedAt = none
    · rw [if_pos hcond, if_pos]
      simpa using hcond
    · rw [if_neg hcond, if_neg]
      simpa using hcond

/-- Witness for `grading_effect`: teacher 100 grades the submitted fixture
with 80 at time 77; all fields are set and `gradedAt` is stamped. -/
theorem grading_effect_witness :
    ∃ saved : Submission,
      gradeSubmission dbSubmittedSub 100 1 reqGrade80 77 =
        (dbSubmittedSub.saveSubmission saved, .ok saved) ∧
      saved.grade = reqGrade80.grade ∧ saved.feedback = reqGrade80.feedback ∧
      saved.gradedBy = some 100 ∧ saved.status = .graded ∧
      saved.gradedAt =
        (if reqGrade80.grade ≠ subSubmitted.grade ∧ reqGrade80.grade ≠ none ∧
            subSubmitted.gradedAt = none
         then some 77 else subSubmitted.gradedAt) :=
  grading_effect dbSubmittedSub 100 1 reqGrade80 77 subSubmitted asgFix
    (by decide) (by decide) rfl
    (by
      intro g hg
      simp only [reqGrade80, Option.some.injEq] at hg
      subst hg
      constructor <;> norm_num [asgFix])

/-! ### Outcome analysis of the three mutating operations -/

/-- Every run of `createSubmission` either fails leaving the store intact,
saves an updated version of the stored pair submission (same id, same
assignment, same student), or appends one fresh submission for the
requested pair. -/
theorem createSubmission_outcome (db : DB) (u : Nat) (req : SubmissionReq) (now : Int) :
    ((createSubmission db u req now).1 = db ∧
      ∃ e, (createSubmission db u req now).2 = Except.error e) ∨
    (∃ aid sub saved,
      req.assignment = some aid ∧
      db.findSubmissionPair aid u = some sub ∧
      saved.id = sub.id ∧ saved.assignment = sub.assignment ∧
      saved.student = sub.student ∧
      (createSubmission db u req now).1 = db.saveSubmission saved ∧
      (createSubmission db u req now).2 = Except.ok saved) ∨
    (∃ aid saved,
      req.assignment = some aid ∧
      db.findSubmissionPair aid u = none ∧
      saved.id = db.nextId ∧ saved.assignment = aid ∧ saved.student = u ∧
      (createSubmission db u req now).1.submissions = db.submissions ++ [saved] ∧
      (createSubmission db u req now).1.nextId = db.nextId + 1 ∧
      (createSubmission db u req now).2 = Except.ok saved) := by
  cases hreq : req.assignment with
  | none =>
    left
    refine ⟨by simp [createSubmission, hreq],
      ApiError.validationError "Please provide an assignment ID",
      by simp [createSubmission, hreq]⟩
  | some aid =>
    cases hasg : db.findAssignment aid with
    | none =>
      left
      refine ⟨by simp [createSubmission, hreq, hasg],
        ApiError.notFound "Assignment not found",
        by simp [createSubmission, hreq, hasg]⟩
    | some asg =>
      by_cases hstat : asg.status = .published
      case neg =>
        left
        refine ⟨by simp [createSubmission, hreq, hasg, hstat],
          ApiError.validationError "Cannot submit to unpublished assignment",
          by simp [createSubmission, hreq, hasg, hstat]⟩
      case pos =>
      cases hc : db.findClassroom asg.classroom with
      | none =>
        left
        refine ⟨by simp [createSubmission, hreq, hasg, hstat, hc],
          ApiError.internal "Error creating submission",
          by simp [createSubmission, hreq, hasg, hstat, hc]⟩
      | some c =>
        by_cases henr : u ∈ c.students
        case neg =>
          left
          refine ⟨by simp [createSubmission, hreq, hasg, hstat, hc, henr],
            ApiError.forbidden "You are not enrolled in this classroom",
            by simp [createSubmission, hreq, hasg, hstat, hc, henr]⟩
        case pos =>
        by_cases hdue : asg.allowLateSubmission = false ∧ asg.dueDate < now
        case pos =>
          left
          refine ⟨by simp [createSubmission, hreq, hasg, hstat, hc, henr, hdue],
            ApiError.validationError
              "This assignment no longer accepts submissions (past due date)",
            by simp [createSubmission, hreq, hasg, hstat, hc, henr, hdue]⟩
        case neg =>
        have hdueOr : asg.allowLateSubmission = true ∨ now ≤ asg.dueDate := by
          by_cases hA : asg.allowLateSubmission = true
          · exact Or.inl hA
          · right
            rcases not_and_or.mp hdue with h | h
            · exact absurd (Bool.eq_false_iff.mpr hA) h
            · exact not_lt.mp h
        cases hpair : db.findSubmissionPair aid u with
        | some sub =>
          by_cases hlock : sub.status = .graded ∨ sub.status = .returned
          case pos =>
            left
            refine ⟨by simp [createSubmission, hreq, hasg, hstat, hc, henr, hdue,
                hpair, hlock],
              ApiError.validationError "Cannot modify submission after it has been graded",
              by simp [createSubmission, hreq, hasg, hstat, hc, henr, hdue, hpair, hlock]⟩
          case neg =>
            right; left
            have hopen : sub.status = .draft ∨ sub.status = .submitted := by
              cases hst : sub.status <;> simp_all
            have heq := createSubmission_update_path db u req now aid asg c sub
              hreq hasg hstat hc (by simpa using henr) hdueOr hpair hopen
            refine ⟨aid, sub, _, rfl, hpair,
              (preSaveSubmission_frame { sub with
                  content := if jsStrTruthy req.content then req.content else sub.content,
                  attachments := req.attachments.getD sub.attachments,
                  status := req.status.getD sub.status } (some asg) now
                  (decide (req.status.getD sub.status ≠ sub.status)) false).1,
              (preSaveSubmission_frame { sub with
                  content := if jsStrTruthy req.content then req.content else sub.content,
                  attachments := req.attachments.getD sub.attachments,
                  status := req.status.getD sub.status } (some asg) now
                  (decide (req.status.getD sub.status ≠ sub.status)) false).2.1,
              (preSaveSubmission_frame { sub with
                  content := if jsStrTruthy req.content then req.content else sub.content,
                  attachments := req.attachments.getD sub.attachments,
                  status := req.status.getD sub.status } (some asg) now
                  (decide (req.status.getD sub.status ≠ sub.status)) false).2.2.1,
              ?_, ?_⟩
            · rw [heq]
            · rw [heq]
        | none =>
          right; right
          refine ⟨aid, preSaveSubmission
              { id := db.nextId, assignment := aid, student := u,
                classroom := asg.classroom, content := req.content,
                attachments := req.attachments.getD [],
                status := req.status.getD .draft }
              (some asg) now true false, rfl, hpair, ?_, ?_, ?_, ?_, ?_, ?_⟩
          · exact (preSaveSubmission_frame _ (some asg) now true false).1
          · exact (preSaveSubmission_frame _ (some asg) now true false).2.1
          · exact (preSaveSubmission_frame _ (some asg) now true false).2.2.1
          · simp [createSubmission, hreq, hasg, hstat, hc, henr, hdue, hpair]
          · simp [createSubmission, hreq, hasg, hstat, hc, henr, hdue, hpair]
          · simp [createSubmission, hreq, hasg, hstat, hc, henr, hdue, hpair]

/-- Every run of `gradeSubmission` either fails leaving the store intact or
saves an updated version of the stored submission (same id, same
assignment, same student). -/
theorem gradeSubmission_outcome (db : DB) (u sid : Nat) (req : GradeReq) (now : Int) :
    (gradeSubmission db u sid req now).1 = db ∨
    (∃ sub saved,
      db.findSubmissionById sid = some sub ∧
      saved.id = sub.id ∧ saved.assignment = sub.assignment ∧
      saved.student = sub.student ∧
      (gradeSubmission db u sid req now).1 = db.saveSubmission saved) := by
  cases hsub : db.findSubmissionById sid with
  | none =>
    left
    simp [gradeSubmission, hsub]
  | some sub =>
    cases hasg : db.findAssignment sub.assignment with
    | none =>
      left
      simp [gradeSubmission, hsub, hasg]
    | some asg =>
      by_cases hteach : asg.teacher = u
      case neg =>
        left
        simp [gradeSubmission, hsub, hasg, hteach]
      case pos =>
      by_cases hbad : (match req.grade with
                       | some g => decide (g < 0) || decide (g > asg.totalPoints)
                       | none => false) = true
      case pos =>
        left
        simp [gradeSubmission, hsub, hasg, hteach, hbad]
      case neg =>
        right
        refine ⟨sub, preSaveSubmission { sub with
            grade := req.grade, feedback := req.feedback,
            gradedBy := some u, status := .graded } (some asg) now
            (decide ((SubStatus.graded : SubStatus) ≠ sub.status))
            (decide (req.grade ≠ sub.grade)), rfl, ?_, ?_, ?_, ?_⟩
        · exact (preSaveSubmission_frame _ (some asg) now _ _).1
        · exact (preSaveSubmission_frame _ (some asg) now _ _).2.1
        · exact (preSaveSubmission_frame _ (some asg) now _ _).2.2.1
        · simp [gradeSubmission, hsub, hasg, hteach, hbad]

/-- Every run of `deleteSubmission` either fails leaving the store intact
or filters the identified submission out of the store. -/
theorem deleteSubmission_outcome (db : DB) (u sid : Nat) :
    (deleteSubmission db u sid).1 = db ∨
    ((deleteSubmission db u sid).1.submissions =
      db.submissions.filter (fun s => s.id ≠ sid) ∧
     (deleteSubmission db u sid).1.nextId = db.nextId) := by
  cases hsub : db.findSubmissionById sid with
  | none =>
    left
    simp [deleteSubmission, hsub]
  | some sub =>
    by_cases hown : sub.student = u
    case neg =>
      left
      simp [deleteSubmission, hsub, hown]
    case pos =>
    by_cases hlock : sub.status = .graded ∨ sub.status = .returned
    case pos =>
      left
      simp [deleteSubmission, hsub, hown, hlock]
    case neg =>
      right
      constructor <;> simp [deleteSubmission, hsub, hown, hlock]

/-- Saving an updated version of a stored submission (same id, assignment
and student) never changes any pair count, provided ids are distinct. -/
theorem saveSubmission_pairCount (db : DB) {sub saved : Submission}
    (hnd : (db.submissions.map (fun s => s.id)).Nodup)
    (hmem : sub ∈ db.submissions) (hid : saved.id = sub.id)
    (hasn : saved.assignment = sub.assignment) (hstu : saved.student = sub.student)
    (a st : Nat) :
    pairCount (db.saveSubmission saved) a st = pairCount db a st := by
  unfold DB.saveSubmission pairCount
  dsimp only
  exact countP_replace_by_id hnd hmem hid _ (by simp [hasn, hstu])

/-- `createSubmission` preserves store well-formedness. -/
theorem createSubmission_WF (db : DB) (u : Nat) (req : SubmissionReq) (now : Int)
    (hwf : WF db) : WF (createSubmission db u req now).1 := by
  obtain ⟨hnd, hbound⟩ := hwf
  rcases createSubmission_outcome db u req now with ⟨h, -⟩ | ⟨a, s, sv, -, -, hid, -, -, h, -⟩
    | ⟨a, sv, -, -, hid, -, -, hsubs, hnext, -⟩
  · rw [h]; exact ⟨hnd, hbound⟩
  · rw [h]
    constructor
    · rw [saveSubmission_ids]
      exact hnd
    · intro t ht
      rw [(saveSubmission_parts db sv).2.2]
      have hidmem : t.id ∈ (db.saveSubmission sv).submissions.map (fun s => s.id) :=
        List.mem_map_of_mem _ ht
      rw [saveSubmission_ids] at hidmem
      rcases List.mem_map.mp hidmem with ⟨x, hx, hxid⟩
      rw [← hxid]
      exact hbound x hx
  · constructor
    · rw [hsubs, List.map_append, List.nodup_append]
      refine ⟨hnd, by simp, ?_⟩
      intro i hi hi1
      rcases List.mem_map.mp hi with ⟨x, hx, hxid⟩
      simp only [List.map_cons, List.map_nil, List.mem_singleton, hid] at hi1
      have := hbound x hx
      omega
    · intro t ht
      rw [hnext]
      rw [hsubs] at ht
      rcases List.mem_append.mp ht with h | h
      · have := hbound t h
        omega
      · rcases List.mem_singleton.mp h with rfl
        rw [hid]
        omega

/-- Saving never changes how many submissions are stored. -/
theorem saveSubmission_length (db : DB) (s : Submission) :
    (db.saveSubmission s).submissions.length = db.submissions.length := by
  simp [DB.saveSubmission]

/-- A found pair submission makes the pair count positive. -/
theorem pairCount_pos_of_found {db : DB} {aid stu : Nat} {sub : Submission}
    (h : db.findSubmissionPair aid stu = some sub) : 0 < pairCount db aid stu := by
  obtain ⟨hmem, hasn, hstu⟩ := findSubmissionPair_sound h
  exact List.countP_pos.mpr ⟨sub, hmem, by simp [hasn, hstu]⟩

/-- `createSubmission` keeps every pair count at most 1. -/
theorem createSubmission_pairCount_le (db : DB) (hwf : WF db) (u : Nat)
    (req : SubmissionReq) (now : Int) (a st : Nat) (h : pairCount db a st ≤ 1) :
    pairCount (createSubmission db u req now).1 a st ≤ 1 := by
  rcases createSubmission_outcome db u req now with ⟨heq, -⟩
    | ⟨aid, sub, sv, -, hpair, hid, hasn, hstu, heq, -⟩
    | ⟨aid, sv, -, hpair, -, hasn, hstu, hsubs, -, -⟩
  · rw [heq]; exact h
  · rw [heq]
    obtain ⟨hmem, hasn2, hstu2⟩ := findSubmissionPair_sound hpair
    rw [saveSubmission_pairCount db hwf.1 hmem hid (hasn.trans hasn2 ▸ hasn)
      (hstu.trans hstu2 ▸ hstu) a st]
    exact h
  · show (createSubmission db u req now).1.submissions.countP _ ≤ 1
    rw [hsubs, List.countP_append]
    by_cases hp : (sv.assignment == a && sv.student == st) = true
    · have : a = aid ∧ st = u := by
        simp only [Bool.and_eq_true, beq_iff_eq, hasn, hstu] at hp
        exact ⟨hp.1.symm, hp.2.symm⟩
      obtain ⟨rfl, rfl⟩ := this
      have h0 : pairCount db a st = 0 := (findSubmissionPair_none_iff db a st).mp hpair
      show pairCount db a st + _ ≤ 1
      rw [h0]
      simp [hp]
    · show pairCount db a st + _ ≤ 1
      simp only [List.countP_cons, List.countP_nil, hp]
      simpa using h

/-- With the pair already stored once, `createSubmission` keeps the count
at exactly 1 and never lengthens the store. -/
theorem createSubmission_pairCount_eq_one (db : DB) (hwf : WF db) (u : Nat)
    (req : SubmissionReq) (now : Int) (aid : Nat)
    (hreq : req.assignment = some aid) (h1 : pairCount db aid u = 1) :
    pairCount (createSubmission db u req now).1 aid u = 1 ∧
    (createSubmission db u req now).1.submissions.length = db.submissions.length := by
  rcases createSubmission_outcome db u req now with ⟨heq, -⟩
    | ⟨aid2, sub, sv, -, hpair, hid, hasn, hstu, heq, -⟩
    | ⟨aid2, sv, hreq2, hpair, -, -, -, -, -, -⟩
  · rw [heq]; exact ⟨h1, rfl⟩
  · rw [heq]
    obtain ⟨hmem, -, -⟩ := findSubmissionPair_sound hpair
    exact ⟨(saveSubmission_pairCount db hwf.1 hmem hid hasn hstu aid u).trans h1,
      saveSubmission_length db sv⟩
  · have haid : aid2 = aid := by
      rw [hreq] at hreq2
      exact (Option.some.injEq _ _).mp hreq2.symm
    subst haid
    have h0 : pairCount db aid2 u = 0 := (findSubmissionPair_none_iff db aid2 u).mp hpair
    omega

/-- From an empty pair, a successful `createSubmission` stores the pair
exactly once. -/
theorem createSubmission_creates_one (db : DB) (u : Nat) (req : SubmissionReq)
    (now : Int) (aid : Nat) (hreq : req.assignment = some aid)
    (h0 : pairCount db aid u = 0) (s₁ : Submission)
    (hok : (createSubmission db u req now).2 = Except.ok s₁) :
    pairCount (createSubmission db u req now).1 aid u = 1 := by
  rcases createSubmission_outcome db u req now with ⟨-, e, herr⟩
    | ⟨aid2, sub, sv, hreq2, hpair, -, -, -, -, -⟩
    | ⟨aid2, sv, hreq2, hpair, -, hasn, hstu, hsubs, -, -⟩
  · rw [hok] at herr
    cases herr
  · have haid : aid2 = aid := by
      rw [hreq] at hreq2
      exact (Option.some.injEq _ _).mp hreq2.symm
    subst haid
    have := pairCount_pos_of_found hpair
    omega
  · have haid : aid2 = aid := by
      rw [hreq] at hreq2
      exact (Option.some.injEq _ _).mp hreq2.symm
    subst haid
    show (createSubmission db u req now).1.submissions.countP _ = 1
    rw [hsubs, List.countP_append]
    have hp : (sv.assignment == aid2 && sv.student == u) = true := by
      simp [hasn, hstu]
    show pairCount db aid2 u + _ = 1
    rw [h0]
    simp [hp]

/-- `gradeSubmission` keeps every pair count at most 1. -/
theorem gradeSubmission_pairCount_le (db : DB) (hwf : WF db) (u sid : Nat)
    (req : GradeReq) (now : Int) (a st : Nat) (h : pairCount db a st ≤ 1) :
    pairCount (gradeSubmission db u sid req now).1 a st ≤ 1 := by
  rcases gradeSubmission_outcome db u sid req now with heq
    | ⟨sub, sv, hsub, hid, hasn, hstu, heq⟩
  · rw [heq]; exact h
  · rw [heq]
    obtain ⟨hmem, -⟩ := findSubmissionById_sound hsub
    rw [saveSubmission_pairCount db hwf.1 hmem hid hasn hstu a st]
    exact h

/-- `deleteSubmission` keeps every pair count at most 1. -/
theorem deleteSubmission_pairCount_le (db : DB) (u sid : Nat)
    (a st : Nat) (h : pairCount db a st ≤ 1) :
    pairCount (deleteSubmission db u sid).1 a st ≤ 1 := by
  rcases deleteSubmission_outcome db u sid with heq | ⟨hsubs, -⟩
  · rw [heq]; exact h
  · show (deleteSubmission db u sid).1.submissions.countP _ ≤ 1
    rw [hsubs]
    exact le_trans ((List.filter_sublist _).countP_le _) h

/-- Claim C3: at most one submission is stored per (assignment, student)
pair: the bound is preserved by the create/update, grade and delete
operations, and calling the create operation twice for the same pair
stores exactly one submission — the second call updates the existing
record and never inserts (the store does not grow). -/
theorem submission_uniqueness (db : DB) (hwf : WF db) :
    (∀ (u : Nat) (req : SubmissionReq) (now : Int) (a st : Nat),
      pairCount db a st ≤ 1 → pairCount (createSubmission db u req now).1 a st ≤ 1) ∧
    (∀ (u sid : Nat) (req : GradeReq) (now : Int) (a st : Nat),
      pairCount db a st ≤ 1 → pairCount (gradeSubmission db u sid req now).1 a st ≤ 1) ∧
    (∀ (u sid a st : Nat),
      pairCount db a st ≤ 1 → pairCount (deleteSubmission db u sid).1 a st ≤ 1) ∧
    (∀ (u : Nat) (req : SubmissionReq) (now : Int) (aid : Nat),
      req.assignment = some aid → pairCount db aid u = 0 →
      ∀ s₁ : Submission, (createSubmission db u req now).2 = Except.ok s₁ →
        pairCount (createSubmission db u req now).1 aid u = 1 ∧
        (∀ (req₂ : SubmissionReq) (now₂ : Int), req₂.assignment = some aid →
          pairCount (createSubmission (createSubmission db u req now).1 u req₂ now₂).1
              aid u = 1 ∧
          (createSubmission (createSubmission db u req now).1 u req₂ now₂).1.submissions.length
            = (createSubmission db u req now).1.submissions.length)) := by
  refine ⟨fun u req now a st h => createSubmission_pairCount_le db hwf u req now a st h,
    fun u sid req now a st h => gradeSubmission_pairCount_le db hwf u sid req now a st h,
    fun u sid a st h => deleteSubmission_pairCount_le db u sid a st h,
    ?_⟩
  intro u req now aid hreq h0 s₁ hok
  have h1 : pairCount (createSubmission db u req now).1 aid u = 1 :=
    createSubmission_creates_one db u req now aid hreq h0 s₁ hok
  refine ⟨h1, ?_⟩
  intro req₂ now₂ hreq₂
  exact createSubmission_pairCount_eq_one (createSubmission db u req now).1
    (createSubmission_WF db u req now hwf) u req₂ now₂ aid hreq₂ h1

/-- Witness for `submission_uniqueness`: creating twice for
(assignment 10, student 1) on the empty fixture store keeps exactly one
stored submission and does not grow the store. -/
theorem submission_uniqueness_witness :
    pairCount (createSubmission dbEmpty 1 reqCreateX 0).1 10 1 = 1 ∧
    pairCount (createSubmission (createSubmission dbEmpty 1 reqCreateX 0).1
        1 reqCreateX 0).1 10 1 = 1 ∧
    (createSubmission (createSubmission dbEmpty 1 reqCreateX 0).1
        1 reqCreateX 0).1.submissions.length =
      (createSubmission dbEmpty 1 reqCreateX 0).1.submissions.length := by
  have h := (submission_uniqueness dbEmpty
      ⟨by simp [dbEmpty], by simp [dbEmpty]⟩).2.2.2
    1 reqCreateX 0 10 rfl (by decide) subCreatedX (by decide)
  exact ⟨h.1, (h.2 reqCreateX 0 rfl).1, (h.2 reqCreateX 0 rfl).2⟩

end Collab
